import Mathlib

/-!
Shallow embedding of `src/mcp/search_web_mcp.py`, a single-file web-search
pipeline: search lookup (DuckDuckGo HTML endpoint), concurrent page fetch,
a memoized model-availability gate, per-page fact extraction, and the
orchestrator `search_web` plus the request handler `handle_request`.

Network effects are modelled as oracle parameters: the search HTTP call,
the per-URL crawler, the model-listing endpoint and the generation endpoint
are each a value (or function) describing what the corresponding call would
return, including the "raised an exception" case.  The process-wide mutable
singleton `_MODEL_CHECK` is modelled by explicit state passing.

Helper functions (`urlparse`, `parse_qs`, `unquote_plus`, `int(...)`)
model the behaviour of the Python standard library on the inputs this
program feeds them (ASCII percent-escapes, no exotic URL forms).
-/

namespace SearchWebMcp

/-- Hexadecimal value of a character, as used by percent-decoding. -/
def hexVal (c : Char) : Option Nat :=
  if '0' ≤ c ∧ c ≤ '9' then some (c.toNat - '0'.toNat)
  else if 'a' ≤ c ∧ c ≤ 'f' then some (c.toNat - 'a'.toNat + 10)
  else if 'A' ≤ c ∧ c ≤ 'F' then some (c.toNat - 'A'.toNat + 10)
  else none

/-- Fuel-indexed percent-decoding on character lists: `%XX` with two hex
digits becomes the character with that code; an ill-formed escape keeps its
`%` literally and scanning resumes at the next character.  The fuel only
makes the recursion structural; `unquoteChars` supplies enough of it. -/
def unquoteCharsAux : Nat → List Char → List Char
  | 0, l => l
  | _ + 1, [] => []
  | fuel + 1, '%' :: a :: b :: rest =>
    match hexVal a, hexVal b with
    | some ha, some hb => Char.ofNat (16 * ha + hb) :: unquoteCharsAux fuel rest
    | _, _ => '%' :: unquoteCharsAux fuel (a :: b :: rest)
  | fuel + 1, '%' :: rest => '%' :: unquoteCharsAux fuel rest
  | fuel + 1, c :: rest => c :: unquoteCharsAux fuel rest

/-- Percent-decoding, modelling `urllib.parse.unquote` for ASCII escape
sequences. -/
def unquoteChars (l : List Char) : List Char :=
  unquoteCharsAux l.length l

/-- Models `urllib.parse.unquote_plus`: replace `+` by a space, then
percent-decode. -/
def unquote_plus (s : String) : String :=
  String.mk (unquoteChars (s.data.map fun c => if c = '+' then ' ' else c))

/-- Split a character list at every occurrence of `sep`. -/
def splitChar (sep : Char) : List Char → List (List Char)
  | [] => [[]]
  | c :: rest =>
    let r := splitChar sep rest
    if c = sep then [] :: r
    else
      match r with
      | [] => [[c]]
      | h :: t => (c :: h) :: t

/-- Split a character list at the first occurrence of `sep`, if present. -/
def splitFirst (sep : Char) : List Char → Option (List Char × List Char)
  | [] => none
  | c :: rest =>
    if c = sep then some ([], rest)
    else
      match splitFirst sep rest with
      | some (pre, post) => some (c :: pre, post)
      | none => none

/-- Boolean suffix test on strings (Python `str.endswith`). -/
def endsWithS (s suffix : String) : Bool :=
  List.isSuffixOf suffix.data s.data

/-- Boolean prefix test on strings (Python `str.startswith`). -/
def startsWithS (s pre : String) : Bool :=
  List.isPrefixOf pre.data s.data

/-- Characters allowed in a URL scheme (`urllib.parse.scheme_chars`). -/
def isSchemeChar (c : Char) : Bool :=
  c.isAlpha || c.isDigit || c = '+' || c = '-' || c = '.'

/-- Result of `urllib.parse.urlparse` restricted to the components this
program reads (`netloc`, `path`, `query`). -/
structure ParsedUrl where
  scheme : String
  netloc : String
  path : String
  query : String
  fragment : String
deriving DecidableEq, Repr

/-- Models `urllib.parse.urlparse`: split a scheme at the first `:` when
everything before it is a scheme character, a `//`-introduced netloc running
to the next `/`, `?` or `#`, then a fragment after the first `#` and a query
after the first `?`. -/
def urlparse (s : String) : ParsedUrl :=
  let cs := s.data
  let schemeRest : List Char × List Char :=
    match splitFirst ':' cs with
    | some (pre, post) =>
      if pre ≠ [] ∧ pre.all isSchemeChar then (pre.map Char.toLower, post) else ([], cs)
    | none => ([], cs)
  let netlocRest : List Char × List Char :=
    match schemeRest.2 with
    | '/' :: '/' :: r =>
      let n := r.takeWhile fun c => ¬(c = '/' ∨ c = '?' ∨ c = '#')
      (n, r.drop n.length)
    | r => ([], r)
  let restFrag : List Char × List Char :=
    match splitFirst '#' netlocRest.2 with
    | some (pre, post) => (pre, post)
    | none => (netlocRest.2, [])
  let pathQuery : List Char × List Char :=
    match splitFirst '?' restFrag.1 with
    | some (pre, post) => (pre, post)
    | none => (restFrag.1, [])
  { scheme := String.mk schemeRest.1
    netloc := String.mk netlocRest.1
    path := String.mk pathQuery.1
    query := String.mk pathQuery.2
    fragment := String.mk restFrag.2 }

/-- One `name=value` field of a query string, decoded; `none` when the field
has no `=` or an empty raw value (which `parse_qs` drops by default). -/
def qsPair (field : List Char) : Option (String × String) :=
  match splitFirst '=' field with
  | none => none
  | some (name, value) =>
    if value = [] then none
    else some (unquote_plus (String.mk name), unquote_plus (String.mk value))

/-- Decoded key/value pairs of a query string, in order of occurrence.
Models `urllib.parse.parse_qs` with its default options. -/
def qsPairs (query : String) : List (String × String) :=
  (splitChar '&' query.data).filterMap qsPair

/-- Models the expression `parse_qs(query).get(key, [""])[0]`: the decoded
value of the first kept occurrence of `key`, or `""` when absent. -/
def parse_qs_get_first (query key : String) : String :=
  match (qsPairs query).find? (fun p => p.1 = key) with
  | some p => p.2
  | none => ""

/-- The `MAX_RESULTS` constant of the module (an upper bound on results). -/
def MAX_RESULTS : Int := 3

/-- One retained search result, as the dict built by
`fetch_duckduckgo_results`: title, url, snippet. -/
structure SearchHit where
  title : String
  url : String
  snippet : String
deriving DecidableEq, Repr

/-- The `.result__a` anchor of a parsed result block: its `href` attribute
(`none` when the attribute is missing) and its stripped text
(`link.get_text(strip=True)`). -/
structure LinkTag where
  href : Option String
  text : String
deriving DecidableEq, Repr

/-- One `.result` block of the parsed search page: its anchor (`none` when
`select_one(".result__a")` found nothing) and the stripped text of its
`.result__snippet` element (`none` when absent). -/
structure Candidate where
  link : Option LinkTag
  snippet : Option String
deriving DecidableEq, Repr

/-- Normalization of a protocol-relative href:
`if href.startswith("//"): href = f"https:{href}"`. -/
def normalizeHref (href : String) : String :=
  if startsWithS href "//" then "https:" ++ href else href

/-- The redirect-unwrapping step of `fetch_duckduckgo_results`: when the
parsed href sits on a netloc ending in `duckduckgo.com` with path prefix
`/l/`, and the query carries a non-empty `uddg` parameter, the href is
replaced by the decoded `uddg` value; otherwise it is kept. -/
def unwrapHref (href : String) : String :=
  let parsed := urlparse href
  if endsWithS parsed.netloc "duckduckgo.com" ∧ startsWithS parsed.path "/l/" then
    let uddg := parse_qs_get_first parsed.query "uddg"
    if uddg ≠ "" then uddg else href
  else href

/-- The per-candidate body of the loop in `fetch_duckduckgo_results`
(lines 73-95): skip blocks without a link or with an empty/missing href,
normalize protocol-relative links, unwrap `uddg` redirect wrappers, and
discard entries whose final netloc still ends in `duckduckgo.com`; the
retained hit carries the link text, the final href and the snippet text
(empty when the snippet element is absent). -/
def candidateHit (c : Candidate) : Option SearchHit :=
  match c.link with
  | none => none
  | some link =>
    match link.href with
    | none => none
    | some h =>
      if h = "" then none
      else
        let href := unwrapHref (normalizeHref h)
        if endsWithS (urlparse href).netloc "duckduckgo.com" then none
        else some { title := link.text, url := href, snippet := c.snippet.getD "" }

/-- The accumulation loop of `fetch_duckduckgo_results`: `count` is the
number of results appended so far; after each append the loop breaks as soon
as `len(results) >= limit`. -/
def ddgLoop (limit : Int) (count : Nat) : List Candidate → List SearchHit
  | [] => []
  | c :: rest =>
    match candidateHit c with
    | none => ddgLoop limit count rest
    | some hit =>
      if ((count : Int) + 1) ≥ limit then [hit]
      else hit :: ddgLoop limit (count + 1) rest

/-- Outcome of the single HTTP GET against the search backend: either a 2xx
response whose HTML parses into a list of `.result` candidate blocks, or an
exception (network error, or `raise_for_status` on a non-2xx response). -/
inductive SearchHttp where
  | ok (candidates : List Candidate)
  | err (msg : String)
deriving DecidableEq, Repr

/-- Model of `fetch_duckduckgo_results(query, limit)`: the HTTP call is the
`http` oracle; an exception propagates (as `Except.error`), a response is
parsed and filtered by the candidate loop. -/
def fetch_duckduckgo_results (http : SearchHttp) (_query : String) (limit : Int) :
    Except String (List SearchHit) :=
  match http with
  | .err e => .error e
  | .ok cands => .ok (ddgLoop limit 0 cands)

/-- The `markdown` attribute of a crawl result: either a plain string, or an
object carrying a `raw_markdown` attribute (whose value may be `None`). -/
inductive MarkdownVal where
  | str (s : String)
  | obj (raw_markdown : Option String)
deriving DecidableEq, Repr

/-- Outcome of one `crawler.arun(url=url)` task under
`asyncio.gather(..., return_exceptions=True)`: either the captured exception
(stringified), or a result object with optional `markdown` and `text`
attributes. -/
inductive CrawlOutcome where
  | exc (msg : String)
  | page (markdown : Option MarkdownVal) (text : Option String)
deriving DecidableEq, Repr

/-- Model of `crawl_urls(urls)`: one concurrently-launched fetch task per
URL; `gather` with `return_exceptions=True` yields exactly one outcome per
task in task order, captured exceptions included.  The `crawl` oracle gives
each URL's task outcome. -/
def crawl_urls (crawl : String → CrawlOutcome) (urls : List String) : List CrawlOutcome :=
  match urls with
  | [] => []
  | _ => urls.map crawl

/-- The dict built by `normalize_crawl_result`: `content` is always present;
`error` is the key that exists only in the exception branch (`none` models a
missing key, matching `payload.get("error")`). -/
structure Payload where
  content : String
  error : Option String
deriving DecidableEq, Repr

/-- Model of `normalize_crawl_result(result)`: an exception becomes
`{content: "", error: str(result)}`; otherwise content prefers
`markdown.raw_markdown` (with `or ""` for `None`), then plain `markdown`,
then `text`, then `""`. -/
def normalize_crawl_result (result : CrawlOutcome) : Payload :=
  match result with
  | .exc msg => { content := "", error := some msg }
  | .page md text =>
    match md with
    | some (.str s) => { content := s, error := none }
    | some (.obj raw) => { content := raw.getD "", error := none }
    | none =>
      match text with
      | some t => { content := t, error := none }
      | none => { content := "", error := none }

/-- The `_MODEL_CHECK` module-level dict: the process-wide memoized model
availability status. -/
structure ModelCheck where
  checked : Bool
  available : Bool
  error : Option String
deriving DecidableEq, Repr

/-- Initial value of `_MODEL_CHECK`. -/
def initModelCheck : ModelCheck :=
  { checked := false, available := true, error := none }

/-- Outcome of the `GET {base}/api/tags` call made by the availability
check: a parsed model list (each entry's `name` field, `none` when the key
is missing), or an exception (network error, non-2xx status, bad JSON). -/
inductive TagsOutcome where
  | ok (models : List (Option String))
  | exc (msg : String)
deriving DecidableEq, Repr

/-- Model of `ensure_model_available()`.  The state is passed explicitly;
the returned triple is (returned status, new `_MODEL_CHECK` state, whether
the availability HTTP call was issued). -/
def ensure_model_available (model : String) (tags : TagsOutcome) (st : ModelCheck) :
    ModelCheck × ModelCheck × Bool :=
  if st.checked then (st, st, false)
  else
    match tags with
    | .exc msg =>
      let st' : ModelCheck := { checked := true, available := false, error := some msg }
      (st', st', true)
    | .ok models =>
      if some model ∈ models then
        let st' : ModelCheck := { checked := true, available := true, error := none }
        (st', st', true)
      else
        let st' : ModelCheck :=
          { checked := true, available := false, error := some ("Model not found: " ++ model) }
        (st', st', true)

/-- The `SUMMARY_MAX_CHARS` prompt-size budget. -/
def SUMMARY_MAX_CHARS : Nat := 6000

/-- The prompt built by `extract_facts` from the truncated page content and
the query. -/
def buildPrompt (content query : String) : String :=
  let snippet := String.mk (content.data.take SUMMARY_MAX_CHARS)
  "Answer the user query using only concrete facts found in the page. " ++
    "Do not include generic site descriptions or boilerplate. Ignore navigation, " ++
    "menus, legal, and layout. If key facts are missing, say 'not found'.\n\n" ++
    "User query: " ++ query ++ "\n\n" ++
    "Page content:\n" ++ snippet

/-- Models Python `str.strip()`: drop whitespace from both ends. -/
def pyStrip (s : String) : String :=
  String.mk (((s.data.dropWhile Char.isWhitespace).reverse.dropWhile Char.isWhitespace).reverse)

/-- Outcome of the generation POST to the model backend: the `response`
field of the parsed JSON (via `data.get("response", "")`), or an exception
(timeout, non-2xx, bad JSON). -/
inductive GenOutcome where
  | ok (response : String)
  | exc (msg : String)
deriving DecidableEq, Repr

/-- The dict returned by `extract_facts`: `facts` is always a string,
`facts_error` is `None` or a message. -/
structure FactsResult where
  facts : String
  facts_error : Option String
deriving DecidableEq, Repr

/-- Model of `extract_facts(content, query)`.  The `gen` oracle gives the
generation call's outcome as a function of the prompt.  The returned triple
is (result dict, new `_MODEL_CHECK` state, whether the availability HTTP
call was issued). -/
def extract_facts (model : String) (tags : TagsOutcome) (gen : String → GenOutcome)
    (content query : String) (st : ModelCheck) : FactsResult × ModelCheck × Bool :=
  if content = "" then ({ facts := "", facts_error := none }, st, false)
  else
    let r := ensure_model_available model tags st
    if ¬ r.1.available then ({ facts := "", facts_error := r.1.error }, r.2.1, r.2.2)
    else
      match gen (buildPrompt content query) with
      | .ok response => ({ facts := pyStrip response, facts_error := none }, r.2.1, r.2.2)
      | .exc msg => ({ facts := "", facts_error := some msg }, r.2.1, r.2.2)

/-- The `asyncio.gather` over `extract_facts` calls in `search_web`, one per
payload content, results in position order.  The concurrent tasks share the
`_MODEL_CHECK` singleton; this models the serialization in which the tasks
reach the gate left to right (any interleaving stores the same status, since
the check is memoized and its outcome is fixed by the `tags` oracle). -/
def runExtractions (model : String) (tags : TagsOutcome) (gen : String → GenOutcome)
    (query : String) : ModelCheck → List String → List FactsResult × ModelCheck
  | st, [] => ([], st)
  | st, c :: rest =>
    let r := extract_facts model tags gen c query st
    let rec2 := runExtractions model tags gen query r.2.1 rest
    (r.1 :: rec2.1, rec2.2)

/-- One entry of the final output list, as built in `search_web`'s loop:
`title`, `url` and `error` keys are always present (`error` may hold `None`,
modelled as `none`); the `facts` key is added only conditionally, so
`facts = none` models its absence. -/
structure ResultRecord where
  title : String
  url : String
  error : Option String
  facts : Option String
deriving DecidableEq, Repr

/-- Truthiness of a Python value that is `None` or a string, as used by
`if facts_text and not facts_error`. -/
def optStrTruthy : Option String → Bool
  | none => false
  | some s => s ≠ ""

/-- The record-assembly body of `search_web`'s `zip` loop for one position. -/
def buildEntry (item : SearchHit) (payload : Payload) (facts : FactsResult) : ResultRecord :=
  let entry : ResultRecord :=
    { title := item.title, url := item.url, error := payload.error, facts := none }
  if facts.facts ≠ "" ∧ ¬ optStrTruthy facts.facts_error then
    { entry with facts := some facts.facts }
  else entry

/-- The `zip`-and-append loop of `search_web` over results, payloads and
extraction results (Python `zip` truncates at the shortest list). -/
def buildOutput (results : List SearchHit) (payloads : List Payload)
    (facts_list : List FactsResult) : List ResultRecord :=
  ((results.zip payloads).zip facts_list).map fun x => buildEntry x.1.1 x.1.2 x.2

/-- Model of `search_web(query, top_k)`: clamp `top_k`, run the search
lookup (whose exception propagates), crawl the hit URLs, normalize, extract
facts per position, and zip everything into the output records.  Returns the
`results` list of the response dict together with the final `_MODEL_CHECK`
state. -/
def search_web (model query : String) (top_k : Int) (http : SearchHttp)
    (crawl : String → CrawlOutcome) (tags : TagsOutcome) (gen : String → GenOutcome)
    (st : ModelCheck) : Except String (List ResultRecord × ModelCheck) :=
  let k := max 1 (min top_k MAX_RESULTS)
  match fetch_duckduckgo_results http query k with
  | .error e => .error e
  | .ok results =>
    let urls := results.map fun item => item.url
    let crawl_results := crawl_urls crawl urls
    let payloads := crawl_results.map normalize_crawl_result
    let er := runExtractions model tags gen query st (payloads.map fun p => p.content)
    .ok (buildOutput results payloads er.1, er.2)

/-- A JSON scalar as it can appear in a request field: a string, an integer,
or `null` (Python `None`). -/
inductive JsonVal where
  | str (s : String)
  | num (n : Int)
  | null
deriving DecidableEq, Repr

/-- Python truthiness of such a value. -/
def jsonTruthy : JsonVal → Bool
  | .str s => s ≠ ""
  | .num n => n ≠ 0
  | .null => false

/-- Python `a or b` over optional request-field values, where `none` models
a missing key (`dict.get` returning `None`). -/
def pyOr (a b : Option JsonVal) : Option JsonVal :=
  match a with
  | some v => if jsonTruthy v then some v else b
  | none => b

/-- Whitespace stripped by Python `int(str)` before parsing. -/
def isPySpace (c : Char) : Bool :=
  c = ' ' ∨ c = '\t' ∨ c = '\n' ∨ c = '\r'

/-- Value of a non-empty all-digit character list, `none` otherwise. -/
def digitsVal : List Char → Option Nat
  | [] => none
  | [c] => if c.isDigit then some (c.toNat - '0'.toNat) else none
  | c :: rest =>
    if c.isDigit then
      (digitsVal rest).map fun n => (c.toNat - '0'.toNat) * 10 ^ rest.length + n
    else none

/-- Models Python `int(s)` on a string: strip surrounding whitespace, allow
one leading sign, then require decimal digits; `none` when this fails
(`ValueError`). -/
def parseIntStr (s : String) : Option Int :=
  let cs := ((s.data.dropWhile isPySpace).reverse.dropWhile isPySpace).reverse
  match cs with
  | '-' :: ds => (digitsVal ds).map fun n => -(n : Int)
  | '+' :: ds => (digitsVal ds).map fun n => (n : Int)
  | ds => (digitsVal ds).map fun n => (n : Int)

/-- Models Python `int(value)` on a request-field value: an int is itself, a
string is parsed, `None` raises `TypeError` (`none`). -/
def pyInt : JsonVal → Option Int
  | .num n => some n
  | .str s => parseIntStr s
  | .null => none

/-- Models Python `str(value)` on the query value. -/
def pyStr : JsonVal → String
  | .str s => s
  | .num n => toString n
  | .null => "None"

/-- A request object, restricted to the four keys `handle_request` reads
(`none` models an absent key). -/
structure Request where
  query : Option JsonVal
  q : Option JsonVal
  top_k : Option JsonVal
  limit : Option JsonVal
deriving DecidableEq, Repr

/-- The `top_k` computation of `handle_request` (lines 180-184):
`request.get("top_k") or request.get("limit") or MAX_RESULTS`, then `int(...)`
with fallback `5` on `TypeError`/`ValueError`. -/
def handle_request_top_k (req : Request) : Int :=
  match pyOr (pyOr req.top_k req.limit) (some (JsonVal.num MAX_RESULTS)) with
  | some v =>
    match pyInt v with
    | some n => n
    | none => 5
  | none => 5

/-- The response dict printed by the process: either the request-level error
object or the pipeline's `results` list. -/
inductive Response where
  | error (msg : String)
  | results (records : List ResultRecord)
deriving DecidableEq, Repr

/-- Model of `handle_request(request)`: resolve the query via the
`query`/`q` alias chain, reject a missing/falsy query with the structured
error, otherwise run the pipeline with the coerced `top_k`; a pipeline
exception (the search backend failure) propagates uncaught. -/
def handle_request (model : String) (http : SearchHttp) (crawl : String → CrawlOutcome)
    (tags : TagsOutcome) (gen : String → GenOutcome) (req : Request) (st : ModelCheck) :
    Except String (Response × ModelCheck) :=
  match pyOr req.query req.q with
  | none => .ok (.error "Missing query", st)
  | some v =>
    if jsonTruthy v then
      (search_web model (pyStr v) (handle_request_top_k req) http crawl tags gen st).map
        fun p => (Response.results p.1, p.2)
    else .ok (.error "Missing query", st)

/-! Helper lemmas about the embedded pipeline. -/

lemma crawl_urls_eq_map (crawl : String → CrawlOutcome) (urls : List String) :
    crawl_urls crawl urls = urls.map crawl := by
  cases urls <;> rfl

lemma runExtractions_length (model : String) (tags : TagsOutcome) (gen : String → GenOutcome)
    (query : String) : ∀ (st : ModelCheck) (cs : List String),
    (runExtractions model tags gen query st cs).1.length = cs.length := by
  intro st cs
  induction cs generalizing st with
  | nil => rfl
  | cons c rest ih => simp [runExtractions, ih]

lemma extract_facts_inv (model : String) (tags : TagsOutcome) (gen : String → GenOutcome)
    (content query : String) (st : ModelCheck)
    (h : (extract_facts model tags gen content query st).1.facts ≠ "") :
    (extract_facts model tags gen content query st).1.facts_error = none := by
  by_cases hc : content = ""
  · simp [extract_facts, hc] at h
  · by_cases ha : (ensure_model_available model tags st).1.available
    · cases hg : gen (buildPrompt content query) with
      | ok response => simp [extract_facts, hc, ha, hg]
      | exc msg => simp [extract_facts, hc, ha, hg] at h
    · simp [extract_facts, hc, ha] at h

lemma runExtractions_mem_inv (model : String) (tags : TagsOutcome) (gen : String → GenOutcome)
    (query : String) : ∀ (st : ModelCheck) (cs : List String) (f : FactsResult),
    f ∈ (runExtractions model tags gen query st cs).1 → f.facts ≠ "" → f.facts_error = none := by
  intro st cs
  induction cs generalizing st with
  | nil => intro f hf; simp [runExtractions] at hf
  | cons c rest ih =>
    intro f hf hne
    simp only [runExtractions, List.mem_cons] at hf
    rcases hf with hf | hf
    · subst hf; exact extract_facts_inv model tags gen c query st hne
    · exact ih _ f hf hne

lemma buildEntry_title (a : SearchHit) (b : Payload) (c : FactsResult) :
    (buildEntry a b c).title = a.title := by
  unfold buildEntry; split <;> rfl

lemma buildEntry_url (a : SearchHit) (b : Payload) (c : FactsResult) :
    (buildEntry a b c).url = a.url := by
  unfold buildEntry; split <;> rfl

lemma buildEntry_error (a : SearchHit) (b : Payload) (c : FactsResult) :
    (buildEntry a b c).error = b.error := by
  unfold buildEntry; split <;> rfl

lemma buildOutput_cons (a : SearchHit) (r : List SearchHit) (b : Payload) (p : List Payload)
    (c : FactsResult) (f : List FactsResult) :
    buildOutput (a :: r) (b :: p) (c :: f) = buildEntry a b c :: buildOutput r p f := by
  simp [buildOutput]

lemma buildOutput_map_titleUrl :
    ∀ (r : List SearchHit) (p : List Payload) (f : List FactsResult),
    p.length = r.length → f.length = r.length →
    (buildOutput r p f).map (fun e => (e.title, e.url)) =
      r.map (fun h => (h.title, h.url)) := by
  intro r
  induction r with
  | nil => intro p f _ _; simp [buildOutput]
  | cons a r ih =>
    intro p f hp hf
    cases p with
    | nil => simp at hp
    | cons b p =>
      cases f with
      | nil => simp at hf
      | cons c f =>
        simp only [buildOutput_cons, List.map_cons, buildEntry_title, buildEntry_url]
        simp only [List.length_cons, Nat.succ.injEq] at hp hf
        rw [ih p f hp hf]

lemma buildOutput_length (r : List SearchHit) (p : List Payload) (f : List FactsResult) :
    (buildOutput r p f).length = min (min r.length p.length) f.length := by
  simp [buildOutput]

lemma buildOutput_getElem? :
    ∀ (r : List SearchHit) (p : List Payload) (f : List FactsResult) (i : Nat)
      (a : SearchHit) (b : Payload) (c : FactsResult),
    r[i]? = some a → p[i]? = some b → f[i]? = some c →
    (buildOutput r p f)[i]? = some (buildEntry a b c) := by
  intro r
  induction r with
  | nil => intro p f i a b c ha; simp at ha
  | cons a0 r ih =>
    intro p f i a b c ha hb hc
    cases p with
    | nil => simp at hb
    | cons b0 p =>
      cases f with
      | nil => simp at hc
      | cons c0 f =>
        rw [buildOutput_cons]
        cases i with
        | zero =>
          simp only [List.getElem?_cons_zero, Option.some.injEq] at ha hb hc
          subst ha; subst hb; subst hc
          exact List.getElem?_cons_zero
        | succ i =>
          simp only [List.getElem?_cons_succ] at ha hb hc ⊢
          exact ih p f i a b c ha hb hc

lemma normalize_page_error (md : Option MarkdownVal) (tx : Option String) :
    (normalize_crawl_result (.page md tx)).error = none := by
  cases md with
  | none => cases tx <;> rfl
  | some v => cases v <;> rfl

lemma buildEntry_facts_eq (a : SearchHit) (b : Payload) (f : FactsResult)
    (hinv : f.facts ≠ "" → f.facts_error = none) :
    (buildEntry a b f).facts =
      if f.facts ≠ "" ∧ f.facts_error = none then some f.facts else none := by
  by_cases h1 : f.facts = ""
  · simp [buildEntry, h1]
  · have h2 := hinv h1
    simp [buildEntry, h1, h2, optStrTruthy]

lemma ddgLoop_length_le (limit : Int) :
    ∀ (cs : List Candidate) (count : Nat), (count : Int) < limit →
    ((ddgLoop limit count cs).length : Int) ≤ limit - count := by
  intro cs
  induction cs with
  | nil => intro count h; simp [ddgLoop]; omega
  | cons c rest ih =>
    intro count h
    simp only [ddgLoop]
    cases hc : candidateHit c with
    | none => simpa using ih count h
    | some hit =>
      by_cases hbr : ((count : Int) + 1) ≥ limit
      · simp only [hbr, if_true, List.length_cons, List.length_nil]
        push_cast; omega
      · simp only [hbr, if_false, List.length_cons]
        have := ih (count + 1) (by push_cast; omega)
        push_cast at *; omega

lemma ddgLoop_ne_nil (limit : Int) :
    ∀ (cs : List Candidate), (∃ c ∈ cs, candidateHit c ≠ none) →
    ∀ (count : Nat), ddgLoop limit count cs ≠ [] := by
  intro cs
  induction cs with
  | nil => intro h; simp at h
  | cons c rest ih =>
    intro h count
    simp only [ddgLoop]
    cases hc : candidateHit c with
    | none =>
      rcases h with ⟨x, hx, hne⟩
      rcases List.mem_cons.mp hx with rfl | hx
      · exact absurd hc hne
      · exact ih ⟨x, hx, hne⟩ count
    | some hit =>
      by_cases hbr : ((count : Int) + 1) ≥ limit <;> simp [hbr]

lemma ddgLoop_skip (limit : Int) (c : Candidate) (hc : candidateHit c = none) :
    ∀ (xs ys : List Candidate) (count : Nat),
    ddgLoop limit count (xs ++ c :: ys) = ddgLoop limit count (xs ++ ys) := by
  intro xs
  induction xs with
  | nil => intro ys count; simp [ddgLoop, hc]
  | cons x xs ih =>
    intro ys count
    simp only [List.cons_append, ddgLoop]
    cases hx : candidateHit x with
    | none => exact ih ys count
    | some hit =>
      by_cases hbr : ((count : Int) + 1) ≥ limit <;> simp [hbr, ih]

lemma candidateHit_self_none (c : Candidate) (link : LinkTag) (h0 : String)
    (hl : c.link = some link) (hh : link.href = some h0) (hne : h0 ≠ "")
    (hself : endsWithS (urlparse (unwrapHref (normalizeHref h0))).netloc "duckduckgo.com" = true) :
    candidateHit c = none := by
  unfold candidateHit
  simp [hl, hh, hne, hself]

lemma search_web_out_eq (model query : String) (top_k : Int) (cands : List Candidate)
    (crawl : String → CrawlOutcome) (tags : TagsOutcome) (gen : String → GenOutcome)
    (st st' : ModelCheck) (out : List ResultRecord)
    (hrun : search_web model query top_k (.ok cands) crawl tags gen st = .ok (out, st')) :
    out = buildOutput (ddgLoop (max 1 (min top_k MAX_RESULTS)) 0 cands)
      ((crawl_urls crawl
          ((ddgLoop (max 1 (min top_k MAX_RESULTS)) 0 cands).map fun item => item.url)).map
        normalize_crawl_result)
      (runExtractions model tags gen query st
        (((crawl_urls crawl
              ((ddgLoop (max 1 (min top_k MAX_RESULTS)) 0 cands).map fun item => item.url)).map
            normalize_crawl_result).map fun p => p.content)).1 := by
  have h2 := Except.ok.inj hrun
  exact ((Prod.mk.injEq _ _ _ _).mp h2).1.symm

/-- C1: for every query and top_k, the records returned by `search_web`
correspond one-to-one, in order, to the hits returned by the search lookup:
the output has the same length, and the Nth record's title and url equal the
Nth hit's, whatever the fetch and extraction oracles do (failures included). -/
theorem search_web_one_record_per_hit (model query : String) (top_k : Int)
    (cands : List Candidate) (crawl : String → CrawlOutcome) (tags : TagsOutcome)
    (gen : String → GenOutcome) (st st' : ModelCheck)
    (hits : List SearchHit) (out : List ResultRecord)
    (hfetch : fetch_duckduckgo_results (.ok cands) query (max 1 (min top_k MAX_RESULTS)) =
      .ok hits)
    (hrun : search_web model query top_k (.ok cands) crawl tags gen st = .ok (out, st')) :
    out.length = hits.length ∧
    out.map (fun r => (r.title, r.url)) = hits.map (fun h => (h.title, h.url)) := by
  have hhits : ddgLoop (max 1 (min top_k MAX_RESULTS)) 0 cands = hits := Except.ok.inj hfetch
  have hout := search_web_out_eq model query top_k cands crawl tags gen st st' out hrun
  rw [hhits] at hout
  subst hout
  constructor
  · rw [buildOutput_length]
    simp [crawl_urls_eq_map, runExtractions_length]
  · apply buildOutput_map_titleUrl <;> simp [crawl_urls_eq_map, runExtractions_length]

/-- C1 witness: a concrete two-hit run with one failing fetch still yields
two records whose titles and urls match the two hits in order. -/
theorem search_web_one_record_per_hit_witness :
    (fetch_duckduckgo_results
        (.ok [⟨some ⟨some "https://example.com/1", "One"⟩, some "A"⟩,
              ⟨some ⟨some "https://example.com/2", "Two"⟩, some "B"⟩])
        "query" (max 1 (min 10 MAX_RESULTS)) =
      .ok [⟨"One", "https://example.com/1", "A"⟩, ⟨"Two", "https://example.com/2", "B"⟩]) ∧
    ([⟨"One", "https://example.com/1", none, some "facts"⟩,
      ⟨"Two", "https://example.com/2", some "fail", none⟩] : List ResultRecord).length =
      ([⟨"One", "https://example.com/1", "A"⟩, ⟨"Two", "https://example.com/2", "B"⟩] :
        List SearchHit).length ∧
    ([⟨"One", "https://example.com/1", none, some "facts"⟩,
      ⟨"Two", "https://example.com/2", some "fail", none⟩] : List ResultRecord).map
        (fun r => (r.title, r.url)) =
      ([⟨"One", "https://example.com/1", "A"⟩, ⟨"Two", "https://example.com/2", "B"⟩] :
        List SearchHit).map (fun h => (h.title, h.url)) := by
  refine ⟨rfl, ?_⟩
  exact search_web_one_record_per_hit "qwen2.5:latest" "query" 10
    [⟨some ⟨some "https://example.com/1", "One"⟩, some "A"⟩,
     ⟨some ⟨some "https://example.com/2", "Two"⟩, some "B"⟩]
    (fun u => if u = "https://example.com/1" then .page (some (.obj (some "m1"))) none
              else .exc "fail")
    (.ok [some "qwen2.5:latest"]) (fun _ => .ok "facts") initModelCheck ⟨true, true, none⟩
    [⟨"One", "https://example.com/1", "A"⟩, ⟨"Two", "https://example.com/2", "B"⟩]
    [⟨"One", "https://example.com/1", none, some "facts"⟩,
     ⟨"Two", "https://example.com/2", some "fail", none⟩]
    rfl rfl

/-- C2: the page fetcher yields exactly one outcome per input URL in input
order; a task that raises at position `i` becomes a Failure payload with
empty content and the stringified exception, while every other position's
payload is exactly the normalization of its own fetch outcome. -/
theorem crawl_urls_isolation (crawl : String → CrawlOutcome) (urls : List String)
    (i j : Nat) (u v m : String) (hu : urls[i]? = some u) (hexc : crawl u = .exc m)
    (hj : j ≠ i) (hv : urls[j]? = some v) :
    (crawl_urls crawl urls).length = urls.length ∧
    ((crawl_urls crawl urls).map normalize_crawl_result)[i]? =
      some { content := "", error := some m } ∧
    ((crawl_urls crawl urls).map normalize_crawl_result)[j]? =
      some (normalize_crawl_result (crawl v)) := by
  rw [crawl_urls_eq_map]
  refine ⟨by simp, ?_, ?_⟩
  · simp [List.getElem?_map, hu, hexc, normalize_crawl_result]
  · simp [List.getElem?_map, hv]

/-- C2 witness: with two urls where the second task raises, the first
position's payload is its normal content and the second is the Failure. -/
theorem crawl_urls_isolation_witness :
    (["https://example.com/1", "https://example.com/2"][1]? =
      some "https://example.com/2") ∧
    (crawl_urls
        (fun u => if u = "https://example.com/1" then .page (some (.str "ok")) none
                  else .exc "boom")
        ["https://example.com/1", "https://example.com/2"]).length = 2 ∧
    ((crawl_urls
        (fun u => if u = "https://example.com/1" then .page (some (.str "ok")) none
                  else .exc "boom")
        ["https://example.com/1", "https://example.com/2"]).map
      normalize_crawl_result)[1]? = some { content := "", error := some "boom" } ∧
    ((crawl_urls
        (fun u => if u = "https://example.com/1" then .page (some (.str "ok")) none
                  else .exc "boom")
        ["https://example.com/1", "https://example.com/2"]).map
      normalize_crawl_result)[0]? =
      some (normalize_crawl_result
        ((fun u => if u = "https://example.com/1" then CrawlOutcome.page (some (.str "ok")) none
                   else CrawlOutcome.exc "boom") "https://example.com/1")) := by
  refine ⟨by decide, ?_⟩
  have h := crawl_urls_isolation
    (fun u => if u = "https://example.com/1" then .page (some (.str "ok")) none
              else .exc "boom")
    ["https://example.com/1", "https://example.com/2"]
    1 0 "https://example.com/2" "https://example.com/1" "boom"
    (by decide) (by decide) (by decide) (by decide)
  exact h

/-- C4: once the singleton has `checked = true`, `ensure_model_available`
returns the stored status unchanged with no network call, and any further
extraction call leaves the singleton untouched and issues no availability
HTTP check. -/
theorem model_gate_memoized (model : String) (tags : TagsOutcome) (gen : String → GenOutcome)
    (content query : String) (st : ModelCheck) (hc : st.checked = true) :
    ensure_model_available model tags st = (st, st, false) ∧
    (extract_facts model tags gen content query st).2.1 = st ∧
    (extract_facts model tags gen content query st).2.2 = false := by
  have he : ensure_model_available model tags st = (st, st, false) := by
    unfold ensure_model_available; simp [hc]
  refine ⟨he, ?_, ?_⟩
  · simp only [extract_facts, he]
    split
    · rfl
    · split
      · rfl
      · split <;> rfl
  · simp only [extract_facts, he]
    split
    · rfl
    · split
      · rfl
      · split <;> rfl

/-- C4 witness: with the gate already marked unavailable, a further
extraction call returns without touching the singleton or re-issuing the
availability check, even though the tags oracle would now succeed. -/
theorem model_gate_memoized_witness :
    (⟨true, false, some "conn refused"⟩ : ModelCheck).checked = true ∧
    ensure_model_available "qwen2.5:latest" (.ok [some "qwen2.5:latest"])
        ⟨true, false, some "conn refused"⟩ =
      (⟨true, false, some "conn refused"⟩, ⟨true, false, some "conn refused"⟩, false) ∧
    (extract_facts "qwen2.5:latest" (.ok [some "qwen2.5:latest"]) (fun _ => .ok "facts")
        "content" "query" ⟨true, false, some "conn refused"⟩).2.1 =
      ⟨true, false, some "conn refused"⟩ ∧
    (extract_facts "qwen2.5:latest" (.ok [some "qwen2.5:latest"]) (fun _ => .ok "facts")
        "content" "query" ⟨true, false, some "conn refused"⟩).2.2 = false := by
  refine ⟨rfl, ?_⟩
  have h := model_gate_memoized "qwen2.5:latest" (.ok [some "qwen2.5:latest"])
    (fun _ => .ok "facts") "content" "query" ⟨true, false, some "conn refused"⟩ rfl
  exact h

/-- C5: the pipeline clamps the requested count to `[1, MAX_RESULTS]` with
`MAX_RESULTS = 3`: for any integer `top_k` the output never exceeds 3
records, and whenever the page had at least one eligible candidate the
output has at least 1 record, even for `top_k ≤ 0`. -/
theorem search_web_clamps_top_k (model query : String) (top_k : Int)
    (cands : List Candidate) (crawl : String → CrawlOutcome) (tags : TagsOutcome)
    (gen : String → GenOutcome) (st st' : ModelCheck) (out : List ResultRecord)
    (hrun : search_web model query top_k (.ok cands) crawl tags gen st = .ok (out, st')) :
    out.length ≤ 3 ∧ ((∃ c ∈ cands, candidateHit c ≠ none) → 1 ≤ out.length) := by
  have hout := search_web_out_eq model query top_k cands crawl tags gen st st' out hrun
  have hlen : out.length = (ddgLoop (max 1 (min top_k MAX_RESULTS)) 0 cands).length := by
    rw [hout, buildOutput_length]
    simp [crawl_urls_eq_map, runExtractions_length]
  constructor
  · have hk : (0 : Int) < max 1 (min top_k MAX_RESULTS) := by
      simp [MAX_RESULTS]
    have hb := ddgLoop_length_le (max 1 (min top_k MAX_RESULTS)) cands 0 (by exact_mod_cast hk)
    have hk3 : max 1 (min top_k MAX_RESULTS) ≤ 3 := by
      simp [MAX_RESULTS]
    omega
  · intro hex
    have hne := ddgLoop_ne_nil (max 1 (min top_k MAX_RESULTS)) cands hex 0
    rw [hlen]
    cases hdd : ddgLoop (max 1 (min top_k MAX_RESULTS)) 0 cands with
    | nil => exact absurd hdd hne
    | cons a l => simp

/-- C5 witness: with three eligible candidates, `top_k = 10` yields at most
3 records and `top_k = 0` yields at least 1. -/
theorem search_web_clamps_top_k_witness :
    ([⟨"A", "https://a.com/", some "e", none⟩,
      ⟨"B", "https://b.com/", some "e", none⟩,
      ⟨"C", "https://c.com/", some "e", none⟩] : List ResultRecord).length ≤ 3 ∧
    1 ≤ ([⟨"A", "https://a.com/", some "e", none⟩] : List ResultRecord).length := by
  constructor
  · exact (search_web_clamps_top_k "m" "q" 10
      [⟨some ⟨some "https://a.com/", "A"⟩, some "sa"⟩,
       ⟨some ⟨some "https://b.com/", "B"⟩, some "sb"⟩,
       ⟨some ⟨some "https://c.com/", "C"⟩, some "sc"⟩,
       ⟨some ⟨some "https://d.com/", "D"⟩, some "sd"⟩]
      (fun _ => .exc "e") (.ok []) (fun _ => .ok "f") initModelCheck initModelCheck
      [⟨"A", "https://a.com/", some "e", none⟩,
       ⟨"B", "https://b.com/", some "e", none⟩,
       ⟨"C", "https://c.com/", some "e", none⟩]
      rfl).1
  · exact (search_web_clamps_top_k "m" "q" 0
      [⟨some ⟨some "https://a.com/", "A"⟩, some "sa"⟩]
      (fun _ => .exc "e") (.ok []) (fun _ => .ok "f") initModelCheck initModelCheck
      [⟨"A", "https://a.com/", some "e", none⟩]
      rfl).2 (by decide)

/-- C3: in every record built by the orchestrator, `error` is exactly the
`error` field of the normalized fetch outcome for that position (the
stringified exception when the fetch raised, absent when it succeeded), and
`facts` is present exactly when the extraction at that position returned
non-empty text with no extraction error; a present extraction error never
populates `facts` and never appears in the record. -/
theorem search_web_record_error_facts (model query : String) (top_k : Int)
    (cands : List Candidate) (crawl : String → CrawlOutcome) (tags : TagsOutcome)
    (gen : String → GenOutcome) (st st' : ModelCheck)
    (hits : List SearchHit) (out : List ResultRecord) (i : Nat)
    (hit : SearchHit) (entry : ResultRecord) (f : FactsResult)
    (msg : String) (md : Option MarkdownVal) (tx : Option String)
    (hfetch : fetch_duckduckgo_results (.ok cands) query (max 1 (min top_k MAX_RESULTS)) =
      .ok hits)
    (hrun : search_web model query top_k (.ok cands) crawl tags gen st = .ok (out, st'))
    (hhit : hits[i]? = some hit)
    (hentry : out[i]? = some entry)
    (hf : (runExtractions model tags gen query st
        (((crawl_urls crawl (hits.map fun item => item.url)).map normalize_crawl_result).map
          fun p => p.content)).1[i]? = some f) :
    entry.error = (normalize_crawl_result (crawl hit.url)).error ∧
    (normalize_crawl_result (.exc msg)).error = some msg ∧
    (normalize_crawl_result (.page md tx)).error = none ∧
    entry.facts = (if f.facts ≠ "" ∧ f.facts_error = none then some f.facts else none) := by
  have hhits : ddgLoop (max 1 (min top_k MAX_RESULTS)) 0 cands = hits := Except.ok.inj hfetch
  have hout := search_web_out_eq model query top_k cands crawl tags gen st st' out hrun
  rw [hhits] at hout
  have hp : ((crawl_urls crawl (hits.map fun item => item.url)).map
      normalize_crawl_result)[i]? = some (normalize_crawl_result (crawl hit.url)) := by
    rw [crawl_urls_eq_map]
    simp [List.getElem?_map, hhit]
  have hfmem : f ∈ (runExtractions model tags gen query st
      (((crawl_urls crawl (hits.map fun item => item.url)).map normalize_crawl_result).map
        fun p => p.content)).1 := by
    have := List.getElem?_eq_some.mp hf
    rcases this with ⟨hlt, hgl⟩
    exact hgl ▸ List.getElem_mem _
  have hinv : f.facts ≠ "" → f.facts_error = none := fun hne =>
    runExtractions_mem_inv model tags gen query st _ f hfmem hne
  have hb := buildOutput_getElem? hits
    ((crawl_urls crawl (hits.map fun item => item.url)).map normalize_crawl_result)
    (runExtractions model tags gen query st
      (((crawl_urls crawl (hits.map fun item => item.url)).map normalize_crawl_result).map
        fun p => p.content)).1
    i hit (normalize_crawl_result (crawl hit.url)) f hhit hp hf
  rw [hout] at hentry
  rw [hb] at hentry
  have hentry2 : entry = buildEntry hit (normalize_crawl_result (crawl hit.url)) f :=
    (Option.some.inj hentry).symm
  refine ⟨?_, rfl, normalize_page_error md tx, ?_⟩
  · rw [hentry2, buildEntry_error]
  · rw [hentry2]
    exact buildEntry_facts_eq hit (normalize_crawl_result (crawl hit.url)) f hinv

/-- C3 witness: in the concrete two-hit run, the first record (successful
fetch, successful extraction) has no error and `facts` populated, matching
the if-characterization, and the error cases of the normalizer behave as
stated. -/
theorem search_web_record_error_facts_witness :
    (⟨"One", "https://example.com/1", none, some "facts"⟩ : ResultRecord).error =
      (normalize_crawl_result ((fun u =>
        if u = "https://example.com/1" then CrawlOutcome.page (some (.obj (some "m1"))) none
        else CrawlOutcome.exc "fail") "https://example.com/1")).error ∧
    (normalize_crawl_result (.exc "fail")).error = some "fail" ∧
    (normalize_crawl_result (.page none none)).error = none ∧
    (⟨"One", "https://example.com/1", none, some "facts"⟩ : ResultRecord).facts =
      (if ("facts" : String) ≠ "" ∧ (none : Option String) = none
       then some ("facts" : String) else none) :=
  search_web_record_error_facts "qwen2.5:latest" "query" 10
    [⟨some ⟨some "https://example.com/1", "One"⟩, some "A"⟩,
     ⟨some ⟨some "https://example.com/2", "Two"⟩, some "B"⟩]
    (fun u => if u = "https://example.com/1" then .page (some (.obj (some "m1"))) none
              else .exc "fail")
    (.ok [some "qwen2.5:latest"]) (fun _ => .ok "facts") initModelCheck ⟨true, true, none⟩
    [⟨"One", "https://example.com/1", "A"⟩, ⟨"Two", "https://example.com/2", "B"⟩]
    [⟨"One", "https://example.com/1", none, some "facts"⟩,
     ⟨"Two", "https://example.com/2", some "fail", none⟩]
    0 ⟨"One", "https://example.com/1", "A"⟩
    ⟨"One", "https://example.com/1", none, some "facts"⟩ ⟨"facts", none⟩
    "fail" none none rfl rfl (by decide) (by decide) (by decide)

/-- C8: a search-backend failure (non-2xx raised by `raise_for_status` or a
network error) aborts the whole lookup: the exception propagates out of
`fetch_duckduckgo_results` and out of `search_web` unchanged, with no
partial structured result. -/
theorem search_backend_error_propagates (model query : String) (top_k : Int) (e : String)
    (crawl : String → CrawlOutcome) (tags : TagsOutcome) (gen : String → GenOutcome)
    (st : ModelCheck) :
    fetch_duckduckgo_results (.err e) query top_k = .error e ∧
    search_web model query top_k (.err e) crawl tags gen st = .error e :=
  ⟨rfl, rfl⟩

/-- C6: a parsed result link that is a backend-internal redirect wrapper
(host ending in the backend's own domain, path prefix `/l/`, non-empty
`uddg` query parameter) is replaced by the decoded `uddg` target URL, which
becomes the `url` field of the retained hit (retained here because the
target's host is external). -/
theorem redirect_wrapper_unwrapped (c : Candidate) (link : LinkTag) (h0 u : String)
    (hl : c.link = some link) (hh : link.href = some h0) (hne : h0 ≠ "")
    (hdom : endsWithS (urlparse (normalizeHref h0)).netloc "duckduckgo.com" = true)
    (hpath : startsWithS (urlparse (normalizeHref h0)).path "/l/" = true)
    (huddg : parse_qs_get_first (urlparse (normalizeHref h0)).query "uddg" = u)
    (hu : u ≠ "")
    (hext : endsWithS (urlparse u).netloc "duckduckgo.com" = false) :
    unwrapHref (normalizeHref h0) = u ∧
    candidateHit c = some { title := link.text, url := u, snippet := c.snippet.getD "" } := by
  have hw : unwrapHref (normalizeHref h0) = u := by
    unfold unwrapHref
    simp [hdom, hpath, huddg, hu]
  refine ⟨hw, ?_⟩
  unfold candidateHit
  simp [hl, hh, hne, hw, hext]

/-- C6 witness: the wrapped link
`https://duckduckgo.com/l/?uddg=https%3A%2F%2Fexample.com%2Fpage` is
retained with the decoded target `https://example.com/page` as its url. -/
theorem redirect_wrapper_unwrapped_witness :
    unwrapHref
        (normalizeHref "https://duckduckgo.com/l/?uddg=https%3A%2F%2Fexample.com%2Fpage") =
      "https://example.com/page" ∧
    candidateHit
        ⟨some ⟨some "https://duckduckgo.com/l/?uddg=https%3A%2F%2Fexample.com%2Fpage",
          "Example"⟩, some "Snippet one"⟩ =
      some { title := "Example", url := "https://example.com/page",
             snippet := (some "Snippet one").getD "" } :=
  redirect_wrapper_unwrapped
    ⟨some ⟨some "https://duckduckgo.com/l/?uddg=https%3A%2F%2Fexample.com%2Fpage",
      "Example"⟩, some "Snippet one"⟩
    ⟨some "https://duckduckgo.com/l/?uddg=https%3A%2F%2Fexample.com%2Fpage", "Example"⟩
    "https://duckduckgo.com/l/?uddg=https%3A%2F%2Fexample.com%2Fpage"
    "https://example.com/page"
    rfl rfl (by decide) (by decide) (by decide) (by decide) (by decide) (by decide)

/-- C7: a candidate whose URL host still belongs to the backend's own
domain after unwrapping is discarded entirely: it produces no hit, its
presence anywhere in the candidate list never changes the retained results,
and as the only candidate it yields an empty hit list. -/
theorem self_domain_entry_excluded (c : Candidate) (link : LinkTag) (h0 query : String)
    (k limit : Int) (count : Nat) (xs ys : List Candidate)
    (hl : c.link = some link) (hh : link.href = some h0) (hne : h0 ≠ "")
    (hself : endsWithS (urlparse (unwrapHref (normalizeHref h0))).netloc
      "duckduckgo.com" = true) :
    candidateHit c = none ∧
    ddgLoop limit count (xs ++ c :: ys) = ddgLoop limit count (xs ++ ys) ∧
    fetch_duckduckgo_results (.ok [c]) query k = .ok [] := by
  have hn := candidateHit_self_none c link h0 hl hh hne hself
  refine ⟨hn, ddgLoop_skip limit c hn xs ys count, ?_⟩
  simp [fetch_duckduckgo_results, ddgLoop, hn]

/-- C7 witness: the ad-tracker link `https://duckduckgo.com/y.js?...` is
discarded: no hit, no effect inside a surrounding candidate list, and an
empty result list when it is the only candidate. -/
theorem self_domain_entry_excluded_witness :
    candidateHit ⟨some ⟨some "https://duckduckgo.com/y.js?ad_domain=example.com", "Ad"⟩,
      some "A"⟩ = none ∧
    ddgLoop 3 0
        ([⟨some ⟨some "https://example.com/real", "Real"⟩, some "B"⟩] ++
          ⟨some ⟨some "https://duckduckgo.com/y.js?ad_domain=example.com", "Ad"⟩,
            some "A"⟩ :: []) =
      ddgLoop 3 0 ([⟨some ⟨some "https://example.com/real", "Real"⟩, some "B"⟩] ++ []) ∧
    fetch_duckduckgo_results
        (.ok [⟨some ⟨some "https://duckduckgo.com/y.js?ad_domain=example.com", "Ad"⟩,
          some "A"⟩]) "test" 3 =
      .ok [] :=
  self_domain_entry_excluded
    ⟨some ⟨some "https://duckduckgo.com/y.js?ad_domain=example.com", "Ad"⟩, some "A"⟩
    ⟨some "https://duckduckgo.com/y.js?ad_domain=example.com", "Ad"⟩
    "https://duckduckgo.com/y.js?ad_domain=example.com" "test" 3 3 0
    [⟨some ⟨some "https://example.com/real", "Real"⟩, some "B"⟩] []
    rfl rfl (by decide) (by decide)

/-- C10: the self-domain test is a plain string-suffix check on the parsed
host: any candidate whose (post-unwrap) host ends in the characters
`duckduckgo.com` is treated as backend-internal — it is excluded, and the
`/l/` + `uddg` unwrapping applies under the same suffix test; in particular
the unrelated host `notduckduckgo.com` is excluded when direct and unwrapped
when it carries a `uddg` wrapper. -/
theorem self_domain_suffix_check (c : Candidate) (link : LinkTag) (h0 h1 u : String)
    (hl : c.link = some link) (hh : link.href = some h0) (hne : h0 ≠ "")
    (hsuffix : endsWithS (urlparse (unwrapHref (normalizeHref h0))).netloc
      "duckduckgo.com" = true)
    (hdom1 : endsWithS (urlparse (normalizeHref h1)).netloc "duckduckgo.com" = true)
    (hpath1 : startsWithS (urlparse (normalizeHref h1)).path "/l/" = true)
    (huddg1 : parse_qs_get_first (urlparse (normalizeHref h1)).query "uddg" = u)
    (hu1 : u ≠ "") :
    candidateHit c = none ∧
    unwrapHref (normalizeHref h1) = u ∧
    candidateHit ⟨some ⟨some "https://notduckduckgo.com/page", "T"⟩, some "S"⟩ = none ∧
    candidateHit
        ⟨some ⟨some "https://notduckduckgo.com/l/?uddg=https%3A%2F%2Fexample.com%2F", "T"⟩,
          some "S"⟩ =
      some ⟨"T", "https://example.com/", "S"⟩ := by
  refine ⟨candidateHit_self_none c link h0 hl hh hne hsuffix, ?_, by decide, by decide⟩
  unfold unwrapHref
  simp [hdom1, hpath1, huddg1, hu1]

/-- C10 witness: instantiated on the direct `notduckduckgo.com` link (which
the suffix test excludes) and on a `notduckduckgo.com` redirect wrapper
(which the suffix test subjects to unwrapping). -/
theorem self_domain_suffix_check_witness :
    candidateHit ⟨some ⟨some "https://notduckduckgo.com/other", "U"⟩, none⟩ = none ∧
    unwrapHref
        (normalizeHref "https://notduckduckgo.com/l/?uddg=https%3A%2F%2Fexample.com%2F") =
      "https://example.com/" ∧
    candidateHit ⟨some ⟨some "https://notduckduckgo.com/page", "T"⟩, some "S"⟩ = none ∧
    candidateHit
        ⟨some ⟨some "https://notduckduckgo.com/l/?uddg=https%3A%2F%2Fexample.com%2F", "T"⟩,
          some "S"⟩ =
      some ⟨"T", "https://example.com/", "S"⟩ :=
  self_domain_suffix_check
    ⟨some ⟨some "https://notduckduckgo.com/other", "U"⟩, none⟩
    ⟨some "https://notduckduckgo.com/other", "U"⟩
    "https://notduckduckgo.com/other"
    "https://notduckduckgo.com/l/?uddg=https%3A%2F%2Fexample.com%2F"
    "https://example.com/"
    rfl rfl (by decide) (by decide) (by decide) (by decide) (by decide) (by decide)

/-- C9 counterexample: the request value `""` for `top_k` cannot be coerced
to an integer (`int("")` raises), yet `handle_request` runs the pipeline
with `MAX_RESULTS`, not `5`, because the falsy value is skipped by the
`or`-chain before coercion is attempted. -/
theorem top_k_fallback_counterexample :
    pyInt (.str "") = none ∧
    handle_request_top_k ⟨some (.str "x"), none, some (.str ""), none⟩ = MAX_RESULTS ∧
    ¬ handle_request_top_k ⟨some (.str "x"), none, some (.str ""), none⟩ = 5 := by
  decide

/-- C9 (amended): for every request whose `top_k`-or-`limit` value is truthy
and cannot be coerced to an integer, `handle_request` runs the pipeline with
`top_k = 5` (not `MAX_RESULTS`); when `top_k` and `limit` are absent it uses
`MAX_RESULTS`. -/
theorem top_k_fallback_amended (model : String) (http : SearchHttp)
    (crawl : String → CrawlOutcome) (tags : TagsOutcome) (gen : String → GenOutcome)
    (st : ModelCheck) (req req2 : Request) (v qv : JsonVal)
    (hv : pyOr req.top_k req.limit = some v) (ht : jsonTruthy v = true)
    (hbad : pyInt v = none)
    (hq : pyOr req.query req.q = some qv) (hqt : jsonTruthy qv = true)
    (h2t : req2.top_k = none) (h2l : req2.limit = none) :
    handle_request_top_k req = 5 ∧
    handle_request model http crawl tags gen req st =
      (search_web model (pyStr qv) 5 http crawl tags gen st).map
        (fun p => (Response.results p.1, p.2)) ∧
    handle_request_top_k req2 = MAX_RESULTS := by
  have h5 : handle_request_top_k req = 5 := by
    unfold handle_request_top_k
    rw [hv]
    simp [pyOr, ht, hbad]
  refine ⟨h5, ?_, ?_⟩
  · unfold handle_request
    rw [hq]
    simp [hqt, h5]
  · unfold handle_request_top_k
    rw [h2t, h2l]
    simp [pyOr, pyInt, MAX_RESULTS]

/-- C9 witness: the request `{"query": "hello", "top_k": "bad"}` runs the
pipeline with `top_k = 5`, and a request without `top_k`/`limit` uses
`MAX_RESULTS`. -/
theorem top_k_fallback_amended_witness :
    handle_request_top_k ⟨some (.str "hello"), none, some (.str "bad"), none⟩ = 5 ∧
    handle_request "m" (.ok []) (fun _ => .exc "e") (.ok []) (fun _ => .ok "f")
        ⟨some (.str "hello"), none, some (.str "bad"), none⟩ initModelCheck =
      (search_web "m" (pyStr (.str "hello")) 5 (.ok []) (fun _ => .exc "e") (.ok [])
        (fun _ => .ok "f") initModelCheck).map (fun p => (Response.results p.1, p.2)) ∧
    handle_request_top_k ⟨some (.str "hello"), none, none, none⟩ = MAX_RESULTS :=
  top_k_fallback_amended "m" (.ok []) (fun _ => .exc "e") (.ok []) (fun _ => .ok "f")
    initModelCheck ⟨some (.str "hello"), none, some (.str "bad"), none⟩
    ⟨some (.str "hello"), none, none, none⟩ (.str "bad") (.str "hello")
    (by decide) (by decide) (by decide) (by decide) (by decide) rfl rfl

end SearchWebMcp






